import Mathlib

set_option maxRecDepth 4000

/-!
Shallow embedding of the furnace-control repository, covering:
* the simulation tick (`internal/service/simulator.go`): `runTick`,
  `driftToAmbient`, `handleHeat`, `handleCooling`, `detectAndLogOverheat`;
* the control operations (`FurnaceService.Stop` / `FurnaceService.SetMode`);
* the monitoring read (`MonitoringService.GetState`);
* the websocket interval resolution (`internal/handlers/websockets.go`:
  `parseInterval`, together with models of Go's `time.ParseDuration` and
  `strconv.Atoi`).

Go `float64` values (temperatures, elapsed seconds) are modelled as `ℚ`;
Go `int`/`int64` as `Int` with explicit `2^63` range checks where the Go
code checks overflow; Go `time.Time` as an instant in seconds (`ℚ`)
together with a flag recording whether its location is UTC.  Store and
event-log effects are made explicit: each operation returns the state it
would Save (plus whether a Save happens) and the list of events it
Appends.  The nondeterministic `uuid.NewString()` event id is omitted
from the event model; no claim mentions it.
-/

namespace FurnaceCtl

/-- Go `time.Time`, reduced to what the code observes: the instant
(seconds since the zero time, `ℚ`) and whether the location is UTC.
`t.UTC()` is `goUTC`; `t.Sub(u).Seconds()` is `t.sec - u.sec`;
`t.IsZero()` is `t.sec = 0` (Go's zero time, whose location is UTC). -/
structure GoTime where
  sec : ℚ
  isUTC : Bool
deriving DecidableEq

/-- Go `t.UTC()`: same instant, location set to UTC. -/
def goUTC (t : GoTime) : GoTime := ⟨t.sec, true⟩

-- ----------- Simulation constants (simulator.go) -----------

/-- ambient temperature °C -/
def AmbientC : ℚ := 25
/-- overheat threshold °C -/
def MaxSafeC : ℚ := 1000
/-- °C per second when HEAT -/
def RampUpCPerSec : ℚ := 3
/-- °C per second when COOL -/
def RampDownCPerSec : ℚ := 5
/-- °C per second cooling drift in STANDBY -/
def StandbyCoolPerSec : ℚ := 1/2
/-- °C band for at-target -/
def SoakToleranceC : ℚ := 2

/-- Mode constant "HEAT". -/
def ModeHeat : String := "HEAT"
/-- Mode constant "COOL". -/
def ModeCool : String := "COOL"
/-- Mode constant "STANDBY". -/
def ModeStandby : String := "STANDBY"

/-- A value stored in an event's `map[string]any` metadata. -/
inductive MetaVal where
  | str (s : String)
  | num (q : ℚ)
  | intv (n : Int)
  | boolean (b : Bool)
deriving DecidableEq

/-- `models.FurnaceEvent` (the random `EventID` is omitted). -/
structure FurnaceEvent where
  occurredAt : GoTime
  typ : String
  description : String
  metadata : List (String × MetaVal)
deriving DecidableEq

/-- `models.FurnaceState`. -/
structure FurnaceState where
  id : Int
  mode : String
  currentTempC : ℚ
  targetTempC : ℚ
  remainingSeconds : Int
  errorCodes : List String
  isRunning : Bool
  updatedAt : GoTime
deriving DecidableEq

/-- `maxFloat` helper from simulator.go. -/
def maxFloat (a b : ℚ) : ℚ := if a ≥ b then a else b

/-- `hasString` helper from simulator.go. -/
def hasString (ss : List String) (want : String) : Bool :=
  ss.any (fun s => s == want)

/-- Go's `int(x)` conversion on a `float64`: truncation toward zero. -/
def goTrunc (q : ℚ) : Int := if 0 ≤ q then ⌊q⌋ else ⌈q⌉

/-- `driftToAmbient` (simulator.go): cools toward ambient when not
running; second component is the `changed` return value. -/
def driftToAmbient (st : FurnaceState) (elapsed : ℚ) : FurnaceState × Bool :=
  if st.currentTempC > AmbientC then
    ({ st with currentTempC := maxFloat (st.currentTempC - StandbyCoolPerSec * elapsed) AmbientC },
      true)
  else (st, false)

/-- `handleCooling` (simulator.go): cools toward ambient by a given rate. -/
def handleCooling (st : FurnaceState) (elapsed ratePerSec : ℚ) : FurnaceState × Bool :=
  if st.currentTempC > AmbientC then
    ({ st with currentTempC := maxFloat (st.currentTempC - ratePerSec * elapsed) AmbientC },
      true)
  else (st, false)

/-- The MODE_CHANGE event appended by `handleHeat` when the soak
countdown reaches zero. -/
def modeChangeEvent (now : GoTime) : FurnaceEvent :=
  { occurredAt := goUTC now
    typ := "MODE_CHANGE"
    description := "Duration elapsed; switched to COOL"
    metadata := [("from", MetaVal.str ModeHeat), ("to", MetaVal.str ModeCool)] }

/-- The ramp phase of `handleHeat` (simulator.go lines 144–171): move
the temperature toward target and compute the soak time of the tick.
Result: (state, `tempChanged`, `soakElapsed`). -/
def rampPhase (st : FurnaceState) (elapsed : ℚ) : FurnaceState × Bool × ℚ :=
  let prevTemp := st.currentTempC
  if prevTemp < st.targetTempC - SoakToleranceC then
    let timeToTarget0 := (st.targetTempC - prevTemp) / RampUpCPerSec
    let timeToTarget := if timeToTarget0 < 0 then 0 else timeToTarget0
    let t1 := prevTemp + RampUpCPerSec * elapsed
    let t2 := if t1 > st.targetTempC then st.targetTempC else t1
    ({ st with currentTempC := t2 },
      if t2 = prevTemp then false else true,
      if timeToTarget < elapsed then elapsed - timeToTarget else 0)
  else
    -- already at/near target: the entire tick is soak time; clamp overshoot
    if st.currentTempC > st.targetTempC then
      ({ st with currentTempC := st.targetTempC }, true, elapsed)
    else (st, false, elapsed)

/-- The countdown phase of `handleHeat` (simulator.go lines 173–192):
decrement the soak timer by the whole seconds of soak time; on reaching
zero switch to COOL and emit the MODE_CHANGE event.
Result: (state, `changed`, appended events). -/
def soakCountdown (st1 : FurnaceState) (soakElapsed : ℚ) (now : GoTime) :
    FurnaceState × Bool × List FurnaceEvent :=
  if 0 < st1.remainingSeconds ∧ 0 < soakElapsed then
    let dec := goTrunc soakElapsed
    if 1 ≤ dec then
      if dec < st1.remainingSeconds then
        ({ st1 with remainingSeconds := st1.remainingSeconds - dec }, true, [])
      else
        ({ st1 with remainingSeconds := 0, mode := ModeCool }, true, [modeChangeEvent now])
    else (st1, false, [])
  else (st1, false, [])

/-- `handleHeat` (simulator.go): ramp toward target, then count down the
soak timer; may switch the mode to COOL and append a MODE_CHANGE event.
Result: (new state, `changed` return value, appended events). -/
def handleHeat (st : FurnaceState) (elapsed : ℚ) (now : GoTime) :
    FurnaceState × Bool × List FurnaceEvent :=
  let ramp := rampPhase st elapsed
  let cnt := soakCountdown ramp.1 ramp.2.2 now
  (cnt.1, cnt.2.1 || ramp.2.1, cnt.2.2)

/-- The ERROR event appended by `detectAndLogOverheat`. -/
def overheatEvent (st : FurnaceState) (now : GoTime) : FurnaceEvent :=
  { occurredAt := goUTC now
    typ := "ERROR"
    description := "Overheat detected"
    metadata := [("temp_c", MetaVal.num st.currentTempC),
                 ("max_safe", MetaVal.num MaxSafeC),
                 ("mode", MetaVal.str st.mode),
                 ("isRunning", MetaVal.boolean st.isRunning)] }

/-- `detectAndLogOverheat` (simulator.go): above `MaxSafeC` it appends
"OVERHEAT" to `errorCodes` if absent (second component: state changed)
and appends an ERROR event unconditionally. -/
def detectAndLogOverheat (st : FurnaceState) (now : GoTime) :
    FurnaceState × Bool × List FurnaceEvent :=
  if st.currentTempC > MaxSafeC then
    if hasString st.errorCodes "OVERHEAT" then
      (st, false, [overheatEvent st now])
    else
      ({ st with errorCodes := st.errorCodes ++ ["OVERHEAT"] }, true, [overheatEvent st now])
  else (st, false, [])

/-- The mode switch of `Run` for a running state (simulator.go lines
93–111): HEAT is handled by `handleHeat`, COOL cools at
`RampDownCPerSec`, STANDBY and any unknown mode cool at
`StandbyCoolPerSec`. -/
def runningStep (st : FurnaceState) (elapsed : ℚ) (now : GoTime) :
    FurnaceState × Bool × List FurnaceEvent :=
  if st.mode = ModeHeat then handleHeat st elapsed now
  else if st.mode = ModeCool then
    let r := handleCooling st elapsed RampDownCPerSec
    (r.1, r.2, [])
  else
    let r := handleCooling st elapsed StandbyCoolPerSec
    (r.1, r.2, [])

/-- The state `Run` initializes when the loaded state has `ID == 0`. -/
def initState (now : GoTime) : FurnaceState :=
  { id := 1
    mode := ModeStandby
    currentTempC := AmbientC
    targetTempC := 0
    remainingSeconds := 0
    errorCodes := []
    isRunning := false
    updatedAt := goUTC now }

/-- The outcome of one simulator tick: the in-memory state at the end of
the tick, whether `Save` was called (at most one Save per tick, by the
structure of `Run`), and the events appended during the tick. -/
structure TickResult where
  state : FurnaceState
  saved : Bool
  events : List FurnaceEvent
deriving DecidableEq

/-- The running part of a tick (simulator.go lines 90–121): mode switch,
overheat detection, save-if-changed. -/
def runningTick (st : FurnaceState) (elapsed : ℚ) (now : GoTime) : TickResult :=
  let r1 := runningStep st elapsed now
  let r2 := detectAndLogOverheat r1.1 now
  if r1.2.1 || r2.2.1 then
    ⟨{ r2.1 with updatedAt := goUTC now }, true, r1.2.2 ++ r2.2.2⟩
  else ⟨r2.1, false, r1.2.2 ++ r2.2.2⟩

/-- One iteration of `SimulatorService.Run` (simulator.go lines 52–122)
after a successful Load returned `st`, at tick timestamp `now`. -/
def runTick (st : FurnaceState) (now : GoTime) : TickResult :=
  if st.id = 0 then
    ⟨initState now, true, []⟩
  else
    let elapsed := now.sec - st.updatedAt.sec
    if elapsed < 1 then ⟨st, false, []⟩
    else if st.isRunning = false then
      let r := driftToAmbient st elapsed
      if r.2 then ⟨{ r.1 with updatedAt := goUTC now }, true, []⟩
      else ⟨st, false, []⟩
    else runningTick st elapsed now

-- ----------- FurnaceService (control operations) -----------

/-- `service.ModeParams`. -/
structure ModeParams where
  mode : String
  targetTempC : ℚ
  durationSec : Int
deriving DecidableEq

/-- The distinct error returns of `FurnaceService.SetMode`, in source
order. -/
inductive SetModeError where
  | invalidHeatCfg
  | belowAmbient
  | exceedsMaxSafe
  | invalidMode
  | neverStarted
  | notRunning
deriving DecidableEq

/-- `FurnaceService.Stop`: on the loaded state `st` (id forced to 1 when
no row existed), force STANDBY, clear target/duration, stop, and append
a STOP event.  `now0` is `time.Now()`; the code takes `.UTC()` first. -/
def Stop (st : FurnaceState) (now0 : GoTime) : FurnaceState × FurnaceEvent :=
  let now := goUTC now0
  let st1 := if st.id = 0 then { st with id := 1 } else st
  let st2 := { st1 with
    isRunning := false
    mode := "STANDBY"
    targetTempC := 0
    remainingSeconds := 0
    updatedAt := now }
  (st2, { occurredAt := now, typ := "STOP", description := "Furnace stopped", metadata := [] })

/-- The load/apply phase of `SetMode` (after parameter validation):
reject if never started or not running, otherwise apply the mode and
append a MODE_CHANGE event. -/
def setModeApply (st : FurnaceState) (p : ModeParams) (now : GoTime) :
    Except SetModeError (FurnaceState × FurnaceEvent) :=
  if st.id = 0 then .error .neverStarted
  else if st.isRunning = false then .error .notRunning
  else
    let st1 :=
      if p.mode = "HEAT" then
        { st with mode := p.mode, targetTempC := p.targetTempC,
                  remainingSeconds := p.durationSec, updatedAt := now }
      else
        { st with mode := p.mode, targetTempC := 0, remainingSeconds := 0, updatedAt := now }
    .ok (st1,
      { occurredAt := now
        typ := "MODE_CHANGE"
        description := "Mode changed to " ++ p.mode
        metadata := [("target_temp_c", MetaVal.num st1.targetTempC),
                     ("duration_sec", MetaVal.intv st1.remainingSeconds),
                     ("is_running", MetaVal.boolean st1.isRunning)] })

/-- `FurnaceService.SetMode` on the loaded state `st`.  Parameter
validation happens before the load in the source; an error return means
no Save and no Append happened (the model returns no state on error). -/
def SetMode (st : FurnaceState) (p : ModeParams) (now0 : GoTime) :
    Except SetModeError (FurnaceState × FurnaceEvent) :=
  let now := goUTC now0
  if p.mode = "HEAT" then
    if ¬(p.targetTempC > 0 ∧ p.durationSec > 0) then .error .invalidHeatCfg
    else if p.targetTempC < AmbientC then .error .belowAmbient
    else if p.targetTempC > MaxSafeC then .error .exceedsMaxSafe
    else setModeApply st p now
  else if p.mode = "COOL" ∨ p.mode = "STANDBY" then setModeApply st p now
  else .error .invalidMode

/-- `true` iff an `Except` is an `ok`. -/
def exceptIsOk {ε α : Type} : Except ε α → Bool
  | .ok _ => true
  | .error _ => false

-- ----------- MonitoringService -----------

/-- `toUTC` (monitoring.go): normalizes non-zero time to UTC, preserving
zero values (Go's zero time is itself in UTC). -/
def toUTC (t : GoTime) : GoTime := if t.sec = 0 then t else goUTC t

/-- `MonitoringService.baselineState`: default snapshot for an
uninitialized store; `now0` is `time.Now()`. -/
def baselineState (now0 : GoTime) : FurnaceState :=
  { id := 1
    mode := "STANDBY"
    currentTempC := 25
    targetTempC := 0
    remainingSeconds := 0
    errorCodes := []
    isRunning := false
    updatedAt := goUTC now0 }

/-- `MonitoringService.GetState` on a successful Load returning
`loaded`; `now0` is the wall clock read by `baselineState`. -/
def GetState (loaded : FurnaceState) (now0 : GoTime) : FurnaceState :=
  if loaded.id = 0 then baselineState now0
  else { loaded with updatedAt := toUTC loaded.updatedAt }

-- ----------- Websocket interval resolution -----------

/-- `defaultInterval` (websockets.go), in nanoseconds. -/
def defaultInterval : Int := 1000000000
/-- `maxInterval` (websockets.go), in nanoseconds. -/
def maxInterval : Int := 10000000000
/-- `maxIntervalMilli` (websockets.go). -/
def maxIntervalMilli : Int := 10000

/-- Go `time.ParseDuration` unit table (ns per unit). -/
def unitMap (u : String) : Option Nat :=
  if u = "ns" then some 1
  else if u = "us" ∨ u = "µs" ∨ u = "μs" then some 1000
  else if u = "ms" then some 1000000
  else if u = "s" then some 1000000000
  else if u = "m" then some 60000000000
  else if u = "h" then some 3600000000000
  else none

/-- Go `leadingInt`: consume leading digits into `x`, overflow-checked
against `2^63` exactly as the Go source checks `1<<63`. -/
def leadingInt : List Char → Nat → Option (Nat × List Char)
  | [], x => some (x, [])
  | c :: rest, x =>
    if c < '0' ∨ c > '9' then some (x, c :: rest)
    else if x > 922337203685477580 then none
    else
      let x2 := x * 10 + (c.toNat - '0'.toNat)
      if x2 > 9223372036854775808 then none
      else leadingInt rest x2

/-- Go `leadingFraction`: consume digits after the decimal point,
returning (value, scale, rest).  Go tracks `scale` in a `float64`; here
it stays an exact power of ten (the difference only matters past 2^53,
where Go's value is itself saturated by the overflow flag). -/
def leadingFraction : List Char → Nat → Nat → Bool → Nat × Nat × List Char
  | [], x, scale, _ => (x, scale, [])
  | c :: rest, x, scale, overflow =>
    if c < '0' ∨ c > '9' then (x, scale, c :: rest)
    else if overflow then leadingFraction rest x scale overflow
    else if x > (9223372036854775807) / 10 then leadingFraction rest x scale true
    else
      let y := x * 10 + (c.toNat - '0'.toNat)
      if y > 9223372036854775808 then leadingFraction rest x scale true
      else leadingFraction rest y (scale * 10) overflow

/-- One `[number][unit]` group loop of Go `time.ParseDuration`, with
fuel (each iteration consumes at least one character, so fuel
`s.length + 1` never runs out).  The fractional contribution
`uint64(float64(f) * (float64(unit) / scale))` is modelled by the exact
`f * unit / scale` in `ℕ`. -/
def parseDurationLoop : Nat → List Char → Nat → Option Nat
  | 0, _, _ => none
  | _, [], d => some d
  | fuel + 1, c :: s0, d =>
    let s := c :: s0
    if ¬(c = '.' ∨ ('0' ≤ c ∧ c ≤ '9')) then none
    else
      match leadingInt s 0 with
      | none => none
      | some (v, s1) =>
        let pre := s1.length ≠ s.length
        let fr : Nat × Nat × List Char × Bool :=
          match s1 with
          | '.' :: rest =>
            let lf := leadingFraction rest 0 1 false
            (lf.1, lf.2.1, lf.2.2, lf.2.2.length ≠ rest.length)
          | _ => (0, 1, s1, false)
        let f := fr.1
        let scale := fr.2.1
        let s2 := fr.2.2.1
        let post := fr.2.2.2
        if ¬pre ∧ ¬post then none
        else
          let ulen := (s2.findIdx? (fun ch => ch = '.' ∨ ('0' ≤ ch ∧ ch ≤ '9'))).getD s2.length
          if ulen = 0 then none
          else
            let u := String.mk (s2.take ulen)
            let s3 := s2.drop ulen
            match unitMap u with
            | none => none
            | some unit =>
              if v > 9223372036854775808 / unit then none
              else
                let v1 := v * unit
                let v2 := if f > 0 then v1 + f * unit / scale else v1
                if v2 > 9223372036854775808 then none
                else
                  let d2 := d + v2
                  if d2 > 9223372036854775808 then none
                  else parseDurationLoop fuel s3 d2

/-- Go `time.ParseDuration`, returning the duration in nanoseconds
(`none` on any parse error or overflow). -/
def goParseDuration (str : String) : Option Int :=
  let s0 := str.data
  let signed : Bool × List Char :=
    match s0 with
    | c :: rest =>
      if c = '-' then (true, rest)
      else if c = '+' then (false, rest)
      else (false, s0)
    | [] => (false, s0)
  let neg := signed.1
  let s1 := signed.2
  if s1 = ['0'] then some 0
  else if s1 = [] then none
  else
    match parseDurationLoop (s1.length + 1) s1 0 with
    | none => none
    | some d =>
      if neg then some (-(d : Int))
      else if d > 9223372036854775807 then none
      else some (d : Int)

/-- Go `strconv.Atoi` (64-bit int): optional sign, at least one digit,
all digits, range-checked; `none` on any error. -/
def goAtoi (s : String) : Option Int :=
  let cs := s.data
  let signed : Bool × List Char :=
    match cs with
    | c :: rest =>
      if c = '-' then (true, rest)
      else if c = '+' then (false, rest)
      else (false, cs)
    | [] => (false, cs)
  let neg := signed.1
  let digits := signed.2
  if digits = [] then none
  else if digits.all (fun d => '0' ≤ d ∧ d ≤ '9') then
    let v : Nat := digits.foldl (fun a d => a * 10 + (d.toNat - '0'.toNat)) 0
    let i : Int := if neg then -(v : Int) else (v : Int)
    if -(9223372036854775808) ≤ i ∧ i ≤ 9223372036854775807 then some i else none
  else none

/-- First early return of `parseInterval`: the `?interval=` duration
string, accepted iff it parses and lies in `(0, maxInterval]`. -/
def intervalFromStr (iq : String) : Option Int :=
  if iq = "" then none
  else
    match goParseDuration iq with
    | some d => if d > 0 ∧ d ≤ maxInterval then some d else none
    | none => none

/-- Second early return of `parseInterval`: the `?interval_ms=` integer,
accepted iff it parses and lies in `(0, maxIntervalMilli]`; value in
nanoseconds. -/
def intervalFromMs (mq : String) : Option Int :=
  if mq = "" then none
  else
    match goAtoi mq with
    | some v => if v > 0 ∧ v ≤ maxIntervalMilli then some (v * 1000000) else none
    | none => none

/-- `Handler.parseInterval` (websockets.go): duration string first, then
millisecond integer, then the 1-second default; result in nanoseconds.
A query parameter is absent iff it is the empty string (`c.Query`). -/
def parseInterval (iq mq : String) : Int :=
  match intervalFromStr iq with
  | some d => d
  | none =>
    match intervalFromMs mq with
    | some d => d
    | none => defaultInterval

/-- The claim-relevant fields of a state: everything except
`updatedAt`. -/
def coreFields (st : FurnaceState) :
    Int × String × ℚ × ℚ × Int × List String × Bool :=
  (st.id, st.mode, st.currentTempC, st.targetTempC, st.remainingSeconds,
    st.errorCodes, st.isRunning)

-- ===================== Theorems =====================

/-- C6: Stop is idempotent on the state: after each of two consecutive
Stop calls the state has `isRunning = false`, `mode = STANDBY`, and
cleared `targetTempC`/`remainingSeconds`; each call appends one STOP
event (the model returns exactly one event per call, so two in total);
and Stop produces a valid row with id 1 even when no state existed
(loaded id 0). -/
theorem c6_stop_idempotent (st : FurnaceState) (now1 now2 : GoTime) :
    (Stop st now1).1.isRunning = false ∧
    (Stop st now1).1.mode = "STANDBY" ∧
    (Stop st now1).1.targetTempC = 0 ∧
    (Stop st now1).1.remainingSeconds = 0 ∧
    (Stop (Stop st now1).1 now2).1.isRunning = false ∧
    (Stop (Stop st now1).1 now2).1.mode = "STANDBY" ∧
    (Stop (Stop st now1).1 now2).1.targetTempC = 0 ∧
    (Stop (Stop st now1).1 now2).1.remainingSeconds = 0 ∧
    (Stop st now1).2.typ = "STOP" ∧
    (Stop (Stop st now1).1 now2).2.typ = "STOP" ∧
    (st.id = 0 → (Stop st now1).1.id = 1) ∧
    (Stop (Stop st now1).1 now2).1.id = (Stop st now1).1.id := by
  simp only [Stop]
  split_ifs <;> simp_all

/-- Witness for C6 at a concrete input: a store with no prior state
(loaded id 0), stopped twice. -/
theorem c6_stop_idempotent_witness :
    (Stop ⟨0, "HEAT", 300, 400, 5, [], true, ⟨3, false⟩⟩ ⟨7, true⟩).1.isRunning = false ∧
    (Stop ⟨0, "HEAT", 300, 400, 5, [], true, ⟨3, false⟩⟩ ⟨7, true⟩).1.mode = "STANDBY" ∧
    (Stop ⟨0, "HEAT", 300, 400, 5, [], true, ⟨3, false⟩⟩ ⟨7, true⟩).1.targetTempC = 0 ∧
    (Stop ⟨0, "HEAT", 300, 400, 5, [], true, ⟨3, false⟩⟩ ⟨7, true⟩).1.remainingSeconds = 0 ∧
    (Stop (Stop ⟨0, "HEAT", 300, 400, 5, [], true, ⟨3, false⟩⟩ ⟨7, true⟩).1 ⟨9, true⟩).1.isRunning = false ∧
    (Stop (Stop ⟨0, "HEAT", 300, 400, 5, [], true, ⟨3, false⟩⟩ ⟨7, true⟩).1 ⟨9, true⟩).1.mode = "STANDBY" ∧
    (Stop (Stop ⟨0, "HEAT", 300, 400, 5, [], true, ⟨3, false⟩⟩ ⟨7, true⟩).1 ⟨9, true⟩).1.targetTempC = 0 ∧
    (Stop (Stop ⟨0, "HEAT", 300, 400, 5, [], true, ⟨3, false⟩⟩ ⟨7, true⟩).1 ⟨9, true⟩).1.remainingSeconds = 0 ∧
    (Stop ⟨0, "HEAT", 300, 400, 5, [], true, ⟨3, false⟩⟩ ⟨7, true⟩).2.typ = "STOP" ∧
    (Stop (Stop ⟨0, "HEAT", 300, 400, 5, [], true, ⟨3, false⟩⟩ ⟨7, true⟩).1 ⟨9, true⟩).2.typ = "STOP" ∧
    ((⟨0, "HEAT", 300, 400, 5, [], true, ⟨3, false⟩⟩ : FurnaceState).id = 0 →
      (Stop ⟨0, "HEAT", 300, 400, 5, [], true, ⟨3, false⟩⟩ ⟨7, true⟩).1.id = 1) ∧
    (Stop (Stop ⟨0, "HEAT", 300, 400, 5, [], true, ⟨3, false⟩⟩ ⟨7, true⟩).1 ⟨9, true⟩).1.id
      = (Stop ⟨0, "HEAT", 300, 400, 5, [], true, ⟨3, false⟩⟩ ⟨7, true⟩).1.id :=
  c6_stop_idempotent ⟨0, "HEAT", 300, 400, 5, [], true, ⟨3, false⟩⟩ ⟨7, true⟩ ⟨9, true⟩

/-- C8: `GetState` on an empty store (loaded id 0) returns exactly the
baseline snapshot: id 1, STANDBY, 25°C, target 0, remaining 0, no error
codes, not running, `updatedAt` the current wall time in UTC; on a
persisted state it returns the state unchanged except `updatedAt`
normalized to UTC (the `toUTC` helper leaves a zero time as is, but a
zero `time.Time` is itself in UTC, and the repository's `Load` always
returns a `.UTC()` timestamp). -/
theorem c8_getstate_baseline (loaded : FurnaceState) (now0 : GoTime) :
    (loaded.id = 0 →
      GetState loaded now0 = baselineState now0 ∧
      (GetState loaded now0).id = 1 ∧
      (GetState loaded now0).mode = "STANDBY" ∧
      (GetState loaded now0).currentTempC = 25 ∧
      (GetState loaded now0).targetTempC = 0 ∧
      (GetState loaded now0).remainingSeconds = 0 ∧
      (GetState loaded now0).errorCodes = [] ∧
      (GetState loaded now0).isRunning = false ∧
      (GetState loaded now0).updatedAt = ⟨now0.sec, true⟩) ∧
    (loaded.id ≠ 0 →
      GetState loaded now0 = { loaded with updatedAt := toUTC loaded.updatedAt } ∧
      (loaded.updatedAt.sec ≠ 0 →
        (GetState loaded now0).updatedAt = ⟨loaded.updatedAt.sec, true⟩)) := by
  by_cases h : loaded.id = 0 <;>
    simp [GetState, baselineState, toUTC, goUTC, h]
  intro hz
  simp [hz]

/-- Witness for C8: the empty store (zero-valued loaded state) and a
persisted state with a non-UTC timestamp. -/
theorem c8_getstate_baseline_witness :
    ((⟨0, "", 0, 0, 0, [], false, ⟨0, true⟩⟩ : FurnaceState).id = 0 →
      GetState ⟨0, "", 0, 0, 0, [], false, ⟨0, true⟩⟩ ⟨11, false⟩ = baselineState ⟨11, false⟩ ∧
      (GetState ⟨0, "", 0, 0, 0, [], false, ⟨0, true⟩⟩ ⟨11, false⟩).id = 1 ∧
      (GetState ⟨0, "", 0, 0, 0, [], false, ⟨0, true⟩⟩ ⟨11, false⟩).mode = "STANDBY" ∧
      (GetState ⟨0, "", 0, 0, 0, [], false, ⟨0, true⟩⟩ ⟨11, false⟩).currentTempC = 25 ∧
      (GetState ⟨0, "", 0, 0, 0, [], false, ⟨0, true⟩⟩ ⟨11, false⟩).targetTempC = 0 ∧
      (GetState ⟨0, "", 0, 0, 0, [], false, ⟨0, true⟩⟩ ⟨11, false⟩).remainingSeconds = 0 ∧
      (GetState ⟨0, "", 0, 0, 0, [], false, ⟨0, true⟩⟩ ⟨11, false⟩).errorCodes = [] ∧
      (GetState ⟨0, "", 0, 0, 0, [], false, ⟨0, true⟩⟩ ⟨11, false⟩).isRunning = false ∧
      (GetState ⟨0, "", 0, 0, 0, [], false, ⟨0, true⟩⟩ ⟨11, false⟩).updatedAt = ⟨11, true⟩) ∧
    ((⟨0, "", 0, 0, 0, [], false, ⟨0, true⟩⟩ : FurnaceState).id ≠ 0 →
      GetState ⟨0, "", 0, 0, 0, [], false, ⟨0, true⟩⟩ ⟨11, false⟩
        = { (⟨0, "", 0, 0, 0, [], false, ⟨0, true⟩⟩ : FurnaceState) with
            updatedAt := toUTC (⟨0, true⟩ : GoTime) } ∧
      ((⟨0, true⟩ : GoTime).sec ≠ 0 →
        (GetState ⟨0, "", 0, 0, 0, [], false, ⟨0, true⟩⟩ ⟨11, false⟩).updatedAt = ⟨0, true⟩)) :=
  c8_getstate_baseline ⟨0, "", 0, 0, 0, [], false, ⟨0, true⟩⟩ ⟨11, false⟩

/-- C2 counterexample: the claim requires `targetTempC` strictly greater
than ambient (25°C) for HEAT to be accepted, but the code only rejects
`TargetTempC < AmbientC`: on a running state, `SetMode(HEAT,
targetTempC=25, durationSec=10)` succeeds although 25 is not strictly
greater than ambient. -/
theorem c2_counterexample :
    exceptIsOk (SetMode ⟨1, "STANDBY", 25, 0, 0, [], true, ⟨0, true⟩⟩
      ⟨"HEAT", 25, 10⟩ ⟨5, true⟩) = true ∧
    ¬((25 : ℚ) > AmbientC) := by
  constructor
  · with_unfolding_all decide
  · norm_num [AmbientC]

/-- C2 (amended): a HEAT `SetMode` call is rejected (returns an error
and, by the structure of the code, mutates nothing: validation precedes
Load and Save) unless `targetTempC` is at least ambient (25°C), at most
max-safe (1000°C) and `durationSec > 0`; in particular `SetMode(HEAT,
20, 10)` and `SetMode(HEAT, 1500, 10)` fail on every state; and a
successful COOL/STANDBY call clears `targetTempC` and
`remainingSeconds`. -/
theorem c2_setmode_validation :
    (∀ (st : FurnaceState) (p : ModeParams) (now : GoTime), p.mode = "HEAT" →
      ¬(AmbientC ≤ p.targetTempC ∧ p.targetTempC ≤ MaxSafeC ∧ 0 < p.durationSec) →
      exceptIsOk (SetMode st p now) = false) ∧
    (∀ (st : FurnaceState) (now : GoTime),
      exceptIsOk (SetMode st ⟨"HEAT", 20, 10⟩ now) = false) ∧
    (∀ (st : FurnaceState) (now : GoTime),
      exceptIsOk (SetMode st ⟨"HEAT", 1500, 10⟩ now) = false) ∧
    (∀ (st : FurnaceState) (p : ModeParams) (now : GoTime)
      (st2 : FurnaceState) (ev : FurnaceEvent),
      (p.mode = "COOL" ∨ p.mode = "STANDBY") →
      SetMode st p now = .ok (st2, ev) →
      st2.targetTempC = 0 ∧ st2.remainingSeconds = 0) := by
  refine ⟨?_, ?_, ?_, ?_⟩
  · intro st p now hm hbad
    simp only [SetMode, hm, if_pos rfl]
    push_neg at hbad
    by_cases h1 : p.targetTempC > 0 ∧ p.durationSec > 0
    · rcases h1 with ⟨hpos, hdur⟩
      by_cases h2 : p.targetTempC < AmbientC
      · simp [h2, hpos, hdur, exceptIsOk]
      · push_neg at h2
        have h3 : p.targetTempC > MaxSafeC := by
          rcases lt_or_le MaxSafeC p.targetTempC with h | h
          · exact h
          · exact absurd hdur (by simpa using hbad h2 h)
        simp [not_lt.mpr h2, h3, hpos, hdur, exceptIsOk]
    · simp [h1, exceptIsOk]
  · intro st now
    simp [SetMode, AmbientC, exceptIsOk]
    norm_num
  · intro st now
    simp [SetMode, AmbientC, MaxSafeC, exceptIsOk]
    norm_num
  · intro st p now st2 ev hm hok
    have hne : ¬p.mode = "HEAT" := by rcases hm with h | h <;> simp [h]
    simp only [SetMode] at hok
    rw [if_neg hne, if_pos hm] at hok
    simp only [setModeApply] at hok
    by_cases h0 : st.id = 0
    · rw [if_pos h0] at hok
      exact absurd hok (by simp)
    · rw [if_neg h0] at hok
      by_cases hr : st.isRunning = false
      · rw [if_pos hr] at hok
        exact absurd hok (by simp)
      · rw [if_neg hr, if_neg hne] at hok
        simp only [Except.ok.injEq, Prod.mk.injEq] at hok
        rw [← hok.1]
        exact ⟨rfl, rfl⟩
/-- Helper: an option whose `isSome` and `getD` evaluate as stated is
that `some`. -/
theorem option_eq_some_of_getD {α : Type} (o : Option α) (d v : α)
    (h1 : o.isSome = true) (h2 : o.getD d = v) : o = some v := by
  cases o <;> simp_all

/-- Helper: an option whose `isSome` is `false` is `none`. -/
theorem option_eq_none_of_isSome {α : Type} (o : Option α)
    (h : o.isSome = false) : o = none := by
  cases o <;> simp_all

/-- Witness for C2 (amended) at concrete inputs: a running state with
HEAT targets 24 (below ambient), 20, 1500 all rejected; a COOL call on
the same running state succeeds and clears target/duration. -/
theorem c2_setmode_validation_witness :
    exceptIsOk (SetMode ⟨1, "STANDBY", 30, 50, 9, [], true, ⟨0, true⟩⟩
      ⟨"HEAT", 24, 10⟩ ⟨5, true⟩) = false ∧
    exceptIsOk (SetMode ⟨1, "STANDBY", 30, 50, 9, [], true, ⟨0, true⟩⟩
      ⟨"HEAT", 20, 10⟩ ⟨5, true⟩) = false ∧
    exceptIsOk (SetMode ⟨1, "STANDBY", 30, 50, 9, [], true, ⟨0, true⟩⟩
      ⟨"HEAT", 1500, 10⟩ ⟨5, true⟩) = false ∧
    ((⟨1, "COOL", 30, 0, 0, [], true, ⟨5, true⟩⟩ : FurnaceState).targetTempC = 0 ∧
      (⟨1, "COOL", 30, 0, 0, [], true, ⟨5, true⟩⟩ : FurnaceState).remainingSeconds = 0) := by
  refine ⟨?_, ?_, ?_, ?_⟩
  · exact c2_setmode_validation.1 ⟨1, "STANDBY", 30, 50, 9, [], true, ⟨0, true⟩⟩
      ⟨"HEAT", 24, 10⟩ ⟨5, true⟩ rfl (by norm_num [AmbientC, MaxSafeC])
  · exact c2_setmode_validation.2.1 ⟨1, "STANDBY", 30, 50, 9, [], true, ⟨0, true⟩⟩ ⟨5, true⟩
  · exact c2_setmode_validation.2.2.1 ⟨1, "STANDBY", 30, 50, 9, [], true, ⟨0, true⟩⟩ ⟨5, true⟩
  · exact c2_setmode_validation.2.2.2 ⟨1, "STANDBY", 30, 50, 9, [], true, ⟨0, true⟩⟩
      ⟨"COOL", 0, 0⟩ ⟨5, true⟩ ⟨1, "COOL", 30, 0, 0, [], true, ⟨5, true⟩⟩
      ⟨⟨5, true⟩, "MODE_CHANGE", "Mode changed to COOL",
        [("target_temp_c", MetaVal.num 0), ("duration_sec", MetaVal.intv 0),
         ("is_running", MetaVal.boolean true)]⟩
      (Or.inl rfl) (by with_unfolding_all rfl)

/-- C7: streaming interval resolution.  A duration string that parses to
`d` nanoseconds with `0 < d ≤ 10s` wins regardless of `interval_ms`; if
the duration string yields nothing (absent, unparsable, or out of
range), a millisecond integer `v` with `0 < v ≤ 10000` is used; if both
yield nothing the 1-second default applies.  Concretely:
`interval=2s&interval_ms=150` gives 2s, `interval=bogus&interval_ms=250`
gives 250ms, and no parameters give 1s.  (Results in nanoseconds.) -/
theorem c7_interval_resolution :
    (∀ (iq mq : String) (d : Int), iq ≠ "" → goParseDuration iq = some d →
      0 < d → d ≤ maxInterval → parseInterval iq mq = d) ∧
    (∀ (iq mq : String) (v : Int), intervalFromStr iq = none → mq ≠ "" →
      goAtoi mq = some v → 0 < v → v ≤ maxIntervalMilli →
      parseInterval iq mq = v * 1000000) ∧
    (∀ iq mq : String, intervalFromStr iq = none → intervalFromMs mq = none →
      parseInterval iq mq = defaultInterval) ∧
    parseInterval "2s" "150" = 2000000000 ∧
    parseInterval "bogus" "250" = 250000000 ∧
    parseInterval "" "" = 1000000000 := by
  refine ⟨?_, ?_, ?_, ?_, ?_, ?_⟩
  · intro iq mq d hne hpd hpos hle
    have h : intervalFromStr iq = some d := by
      simp only [intervalFromStr, if_neg hne, hpd]
      rw [if_pos ⟨hpos, hle⟩]
    simp [parseInterval, h]
  · intro iq mq v hstr hne hat hpos hle
    have h : intervalFromMs mq = some (v * 1000000) := by
      simp only [intervalFromMs, if_neg hne, hat]
      rw [if_pos ⟨hpos, hle⟩]
    simp [parseInterval, hstr, h]
  · intro iq mq h1 h2
    simp [parseInterval, h1, h2]
  · with_unfolding_all decide
  · with_unfolding_all decide
  · with_unfolding_all decide

/-- Witness for C7 at concrete inputs, exercising all three resolution
rules through the general statements. -/
theorem c7_interval_resolution_witness :
    parseInterval "2s" "150" = 2000000000 ∧
    parseInterval "bogus" "250" = 250 * 1000000 ∧
    parseInterval "@" "0" = defaultInterval := by
  refine ⟨?_, ?_, ?_⟩
  · exact c7_interval_resolution.1 "2s" "150" 2000000000 (by decide)
      (option_eq_some_of_getD _ 0 _ (by with_unfolding_all decide)
        (by with_unfolding_all decide))
      (by decide) (by decide)
  · exact c7_interval_resolution.2.1 "bogus" "250" 250
      (option_eq_none_of_isSome _ (by with_unfolding_all decide))
      (by decide)
      (option_eq_some_of_getD _ 0 _ (by with_unfolding_all decide)
        (by with_unfolding_all decide))
      (by decide) (by decide)
  · exact c7_interval_resolution.2.2.1 "@" "0"
      (option_eq_none_of_isSome _ (by with_unfolding_all decide))
      (option_eq_none_of_isSome _ (by with_unfolding_all decide))

-- ----------- Helper lemmas about the tick pieces -----------

/-- On a non-empty state with elapsed time at least 1s and the furnace
running, a tick is the running tick. -/
theorem runTick_running (st : FurnaceState) (now : GoTime) (hid : ¬st.id = 0)
    (h1 : ¬(now.sec - st.updatedAt.sec < 1)) (hrun : st.isRunning = true) :
    runTick st now = runningTick st (now.sec - st.updatedAt.sec) now := by
  simp [runTick, hid, h1, hrun]

/-- The ramp phase only ever touches `currentTempC`. -/
theorem rampPhase_fields (st : FurnaceState) (e : ℚ) :
    (rampPhase st e).1.id = st.id ∧
    (rampPhase st e).1.mode = st.mode ∧
    (rampPhase st e).1.targetTempC = st.targetTempC ∧
    (rampPhase st e).1.remainingSeconds = st.remainingSeconds ∧
    (rampPhase st e).1.errorCodes = st.errorCodes ∧
    (rampPhase st e).1.isRunning = st.isRunning ∧
    (rampPhase st e).1.updatedAt = st.updatedAt := by
  by_cases hA : st.currentTempC < st.targetTempC - SoakToleranceC
  · simp [rampPhase, hA]
  · by_cases hB : st.currentTempC > st.targetTempC <;> simp [rampPhase, hA, hB]

/-- The soak countdown only ever touches `remainingSeconds` and `mode`. -/
theorem soakCountdown_fields (s1 : FurnaceState) (so : ℚ) (now : GoTime) :
    (soakCountdown s1 so now).1.id = s1.id ∧
    (soakCountdown s1 so now).1.currentTempC = s1.currentTempC ∧
    (soakCountdown s1 so now).1.targetTempC = s1.targetTempC ∧
    (soakCountdown s1 so now).1.errorCodes = s1.errorCodes ∧
    (soakCountdown s1 so now).1.isRunning = s1.isRunning ∧
    (soakCountdown s1 so now).1.updatedAt = s1.updatedAt := by
  by_cases h1 : 0 < s1.remainingSeconds ∧ 0 < so
  · by_cases h2 : 1 ≤ goTrunc so
    · by_cases h3 : goTrunc so < s1.remainingSeconds <;> simp [soakCountdown, h1, h2, h3]
    · simp [soakCountdown, h1, h2]
  · simp [soakCountdown, h1]

/-- The three possible outcomes of the soak countdown. -/
theorem soakCountdown_cases (s1 : FurnaceState) (so : ℚ) (now : GoTime) :
    soakCountdown s1 so now = (s1, false, []) ∨
    (∃ d : Int, 1 ≤ d ∧ d < s1.remainingSeconds ∧
      soakCountdown s1 so now
        = ({ s1 with remainingSeconds := s1.remainingSeconds - d }, true, [])) ∨
    (0 < s1.remainingSeconds ∧
      soakCountdown s1 so now
        = ({ s1 with remainingSeconds := 0, mode := ModeCool }, true, [modeChangeEvent now])) := by
  by_cases h1 : 0 < s1.remainingSeconds ∧ 0 < so
  · by_cases h2 : 1 ≤ goTrunc so
    · by_cases h3 : goTrunc so < s1.remainingSeconds
      · exact Or.inr (Or.inl ⟨goTrunc so, h2, h3, by simp [soakCountdown, h1, h2, h3]⟩)
      · exact Or.inr (Or.inr ⟨h1.1, by simp [soakCountdown, h1, h2, h3]⟩)
    · exact Or.inl (by simp [soakCountdown, h1, h2])
  · exact Or.inl (by simp [soakCountdown, h1])

/-- With no remaining soak seconds the countdown is a no-op. -/
theorem soakCountdown_norem (s1 : FurnaceState) (so : ℚ) (now : GoTime)
    (h : s1.remainingSeconds = 0) : soakCountdown s1 so now = (s1, false, []) := by
  simp [soakCountdown, h]

/-- `handleCooling` only ever touches `currentTempC`. -/
theorem handleCooling_fields (st : FurnaceState) (e r : ℚ) :
    (handleCooling st e r).1.id = st.id ∧
    (handleCooling st e r).1.mode = st.mode ∧
    (handleCooling st e r).1.targetTempC = st.targetTempC ∧
    (handleCooling st e r).1.remainingSeconds = st.remainingSeconds ∧
    (handleCooling st e r).1.errorCodes = st.errorCodes ∧
    (handleCooling st e r).1.isRunning = st.isRunning ∧
    (handleCooling st e r).1.updatedAt = st.updatedAt := by
  unfold handleCooling
  split_ifs <;> simp

/-- The mode switch never touches id, isRunning, errorCodes,
targetTempC or updatedAt. -/
theorem runningStep_preserve (st : FurnaceState) (e : ℚ) (now : GoTime) :
    (runningStep st e now).1.id = st.id ∧
    (runningStep st e now).1.isRunning = st.isRunning ∧
    (runningStep st e now).1.errorCodes = st.errorCodes ∧
    (runningStep st e now).1.targetTempC = st.targetTempC ∧
    (runningStep st e now).1.updatedAt = st.updatedAt := by
  unfold runningStep handleHeat
  split_ifs <;>
    simp [soakCountdown_fields, rampPhase_fields, handleCooling_fields]

/-- The mode switch appends either nothing or the single MODE_CHANGE
event of `handleHeat`. -/
theorem runningStep_events (st : FurnaceState) (e : ℚ) (now : GoTime) :
    (runningStep st e now).2.2 = [] ∨
    (runningStep st e now).2.2 = [modeChangeEvent now] := by
  unfold runningStep handleHeat
  split_ifs with hh hc
  · rcases soakCountdown_cases (rampPhase st e).1 (rampPhase st e).2.2 now with
      h | ⟨d, _, _, h⟩ | ⟨_, h⟩ <;> simp [h]
  · simp
  · simp

/-- Overheat detection only ever touches `errorCodes`. -/
theorem detect_fields (s : FurnaceState) (now : GoTime) :
    (detectAndLogOverheat s now).1.id = s.id ∧
    (detectAndLogOverheat s now).1.mode = s.mode ∧
    (detectAndLogOverheat s now).1.currentTempC = s.currentTempC ∧
    (detectAndLogOverheat s now).1.targetTempC = s.targetTempC ∧
    (detectAndLogOverheat s now).1.remainingSeconds = s.remainingSeconds ∧
    (detectAndLogOverheat s now).1.isRunning = s.isRunning ∧
    (detectAndLogOverheat s now).1.updatedAt = s.updatedAt := by
  unfold detectAndLogOverheat
  split_ifs <;> simp

/-- Overheat detection appends either nothing or the single ERROR
event. -/
theorem detect_events (s : FurnaceState) (now : GoTime) :
    (detectAndLogOverheat s now).2.2 = [] ∨
    (detectAndLogOverheat s now).2.2 = [overheatEvent s now] := by
  unfold detectAndLogOverheat
  split_ifs <;> simp

/-- The ramp phase at exact target temperature changes nothing and
yields the whole tick as soak time. -/
theorem rampPhase_atTarget (st : FurnaceState) (e : ℚ)
    (htemp : st.currentTempC = st.targetTempC) :
    rampPhase st e = (st, false, e) := by
  have h1 : ¬(st.currentTempC < st.targetTempC - SoakToleranceC) := by
    rw [htemp]; simp only [SoakToleranceC]; intro h; linarith
  have h2 : ¬(st.currentTempC > st.targetTempC) := by rw [htemp]; exact lt_irrefl _
  simp only [rampPhase]
  rw [if_neg h1, if_neg h2]

/-- `handleHeat` when the state is exactly at target and the whole-second
soak time covers the remaining seconds: the countdown fires, the mode
switches to COOL and the MODE_CHANGE event is emitted. -/
theorem handleHeat_fire (st : FurnaceState) (e : ℚ) (now : GoTime)
    (htemp : st.currentTempC = st.targetTempC) (hrem0 : 0 < st.remainingSeconds)
    (he : 0 < e) (hdec : 1 ≤ goTrunc e) (hcov : st.remainingSeconds ≤ goTrunc e) :
    handleHeat st e now
      = ({ st with remainingSeconds := 0, mode := ModeCool }, true, [modeChangeEvent now]) := by
  have hc : soakCountdown st e now
      = ({ st with remainingSeconds := 0, mode := ModeCool }, true, [modeChangeEvent now]) := by
    unfold soakCountdown
    rw [if_pos ⟨hrem0, he⟩, if_pos hdec, if_neg (not_lt.mpr hcov)]
  simp [handleHeat, rampPhase_atTarget st e htemp, hc]

/-- `handleHeat` when the soak timer is already 0: the countdown is
skipped, so the result is the ramp state with no event. -/
theorem handleHeat_norem (st : FurnaceState) (e : ℚ) (now : GoTime)
    (hrem : st.remainingSeconds = 0) :
    (handleHeat st e now).1 = (rampPhase st e).1 ∧
    (handleHeat st e now).2.2 = [] := by
  have hrem1 : (rampPhase st e).1.remainingSeconds = 0 := by
    rw [(rampPhase_fields st e).2.2.2.1, hrem]
  have hc := soakCountdown_norem (rampPhase st e).1 (rampPhase st e).2.2 now hrem1
  simp [handleHeat, hc]

-- ----------- C3 -----------

/-- C3: a running HEAT state exactly at target with `remainingSeconds =
1`, ticked with elapsed 1.2s, ends with `remainingSeconds = 0`, mode
COOL, and exactly one MODE_CHANGE event whose metadata is
`{from: HEAT, to: COOL}`. -/
theorem c3_soak_transition (st : FurnaceState) (now : GoTime)
    (hid : ¬st.id = 0) (hrun : st.isRunning = true) (hmode : st.mode = "HEAT")
    (htemp : st.currentTempC = st.targetTempC) (hrem : st.remainingSeconds = 1)
    (helap : now.sec - st.updatedAt.sec = 6/5) :
    (runTick st now).state.remainingSeconds = 0 ∧
    (runTick st now).state.mode = "COOL" ∧
    (runTick st now).events.filter (fun ev => ev.typ = "MODE_CHANGE")
      = [modeChangeEvent now] ∧
    (modeChangeEvent now).metadata
      = [("from", MetaVal.str "HEAT"), ("to", MetaVal.str "COOL")] := by
  have h1 : ¬(now.sec - st.updatedAt.sec < 1) := by rw [helap]; norm_num
  rw [runTick_running st now hid h1 hrun, helap]
  have htr : goTrunc (6/5 : ℚ) = 1 := by norm_num [goTrunc]
  have hfire := handleHeat_fire st (6/5) now htemp (by omega) (by norm_num)
    (by rw [htr]) (by rw [htr, hrem])
  have hstep : runningStep st (6/5) now
      = ({ st with remainingSeconds := 0, mode := ModeCool }, true, [modeChangeEvent now]) := by
    unfold runningStep
    rw [if_pos (show st.mode = ModeHeat by rw [hmode]; rfl)]
    exact hfire
  unfold runningTick
  rw [hstep]
  simp only [Bool.true_or, if_true]
  refine ⟨?_, ?_, ?_, rfl⟩
  · simpa using
      (detect_fields { st with remainingSeconds := 0, mode := ModeCool } now).2.2.2.2.1
  · simpa [ModeCool] using
      (detect_fields { st with remainingSeconds := 0, mode := ModeCool } now).2.1
  · rcases detect_events { st with remainingSeconds := 0, mode := ModeCool } now with h | h <;>
      simp [h, modeChangeEvent, overheatEvent]

/-- Witness for C3: HEAT at 500°C with target 500°C, one remaining
second, ticked 1.2s after the last update. -/
theorem c3_soak_transition_witness :
    (runTick ⟨1, "HEAT", 500, 500, 1, [], true, ⟨0, true⟩⟩ ⟨6/5, true⟩).state.remainingSeconds = 0 ∧
    (runTick ⟨1, "HEAT", 500, 500, 1, [], true, ⟨0, true⟩⟩ ⟨6/5, true⟩).state.mode = "COOL" ∧
    (runTick ⟨1, "HEAT", 500, 500, 1, [], true, ⟨0, true⟩⟩ ⟨6/5, true⟩).events.filter
      (fun ev => ev.typ = "MODE_CHANGE") = [modeChangeEvent ⟨6/5, true⟩] ∧
    (modeChangeEvent ⟨6/5, true⟩).metadata
      = [("from", MetaVal.str "HEAT"), ("to", MetaVal.str "COOL")] :=
  c3_soak_transition ⟨1, "HEAT", 500, 500, 1, [], true, ⟨0, true⟩⟩ ⟨6/5, true⟩
    (by norm_num) rfl rfl (by norm_num) rfl (by norm_num)

/-- `maxFloat` is bounded below by its second argument. -/
theorem le_maxFloat (a b : ℚ) : b ≤ maxFloat a b := by
  unfold maxFloat
  split_ifs with h
  · exact h
  · exact le_refl b

/-- `maxFloat a b` with `a < t` and `b < t` stays below `t`. -/
theorem maxFloat_lt (a b t : ℚ) (h1 : a < t) (h2 : b < t) : maxFloat a b < t := by
  unfold maxFloat
  split_ifs <;> assumption

/-- At or below the threshold, overheat detection is a no-op. -/
theorem detect_cold (s : FurnaceState) (now : GoTime)
    (h : s.currentTempC ≤ MaxSafeC) : detectAndLogOverheat s now = (s, false, []) := by
  unfold detectAndLogOverheat
  rw [if_neg (not_lt.mpr h)]

/-- For a non-HEAT mode the switch runs `handleCooling` at a positive
rate (5°C/s for COOL, 0.5°C/s for STANDBY and anything else) and
appends nothing. -/
theorem runningStep_notHeat (st : FurnaceState) (e : ℚ) (now : GoTime)
    (hne : ¬st.mode = ModeHeat) :
    ∃ rate : ℚ, 0 < rate ∧
      runningStep st e now = ((handleCooling st e rate).1, (handleCooling st e rate).2, []) := by
  unfold runningStep
  rw [if_neg hne]
  by_cases hc : st.mode = ModeCool
  · exact ⟨RampDownCPerSec, by norm_num [RampDownCPerSec], by rw [if_pos hc]⟩
  · exact ⟨StandbyCoolPerSec, by norm_num [StandbyCoolPerSec], by rw [if_neg hc]⟩

/-- A running tick's final state is the overheat-checked state of the
mode switch (with some timestamp), and its events are the mode switch's
events followed by the overheat events. -/
theorem runningTick_decomp (st : FurnaceState) (e : ℚ) (now : GoTime) :
    ∃ u : GoTime, (runningTick st e now).state
      = { (detectAndLogOverheat (runningStep st e now).1 now).1 with updatedAt := u } ∧
    (runningTick st e now).events
      = (runningStep st e now).2.2
        ++ (detectAndLogOverheat (runningStep st e now).1 now).2.2 := by
  simp only [runningTick]
  split_ifs with h
  · exact ⟨goUTC now, rfl, rfl⟩
  · exact ⟨(detectAndLogOverheat (runningStep st e now).1 now).1.updatedAt, rfl, rfl⟩

-- ----------- C10 -----------

/-- C10: a running HEAT state whose soak timer is already 0 never
transitions to COOL and never emits a MODE_CHANGE event during a tick;
mode, remaining seconds, running flag and id are preserved, so such a
state stays in HEAT across any number of ticks. -/
theorem c10_heat_zero_remaining (st : FurnaceState) (now : GoTime)
    (hid : ¬st.id = 0) (hrun : st.isRunning = true) (hmode : st.mode = "HEAT")
    (hrem : st.remainingSeconds = 0) :
    (runTick st now).state.mode = "HEAT" ∧
    (runTick st now).state.remainingSeconds = 0 ∧
    (runTick st now).state.isRunning = true ∧
    (runTick st now).state.id = st.id ∧
    (runTick st now).events.filter (fun ev => ev.typ = "MODE_CHANGE") = [] := by
  by_cases h1 : now.sec - st.updatedAt.sec < 1
  · simp [runTick, hid, h1, hmode, hrem, hrun]
  · rw [runTick_running st now hid h1 hrun]
    have hstep1 : runningStep st (now.sec - st.updatedAt.sec) now
        = handleHeat st (now.sec - st.updatedAt.sec) now := by
      unfold runningStep
      rw [if_pos (show st.mode = ModeHeat by rw [hmode]; rfl)]
    obtain ⟨hh1, hh2⟩ := handleHeat_norem st (now.sec - st.updatedAt.sec) now hrem
    have hmode2 : (detectAndLogOverheat (handleHeat st (now.sec - st.updatedAt.sec) now).1 now).1.mode = "HEAT" := by
      rw [(detect_fields _ now).2.1, hh1, (rampPhase_fields st _).2.1, hmode]
    have hrem2 : (detectAndLogOverheat (handleHeat st (now.sec - st.updatedAt.sec) now).1 now).1.remainingSeconds = 0 := by
      rw [(detect_fields _ now).2.2.2.2.1, hh1, (rampPhase_fields st _).2.2.2.1, hrem]
    have hrun2 : (detectAndLogOverheat (handleHeat st (now.sec - st.updatedAt.sec) now).1 now).1.isRunning = true := by
      rw [(detect_fields _ now).2.2.2.2.2.1, hh1, (rampPhase_fields st _).2.2.2.2.2.1, hrun]
    have hid2 : (detectAndLogOverheat (handleHeat st (now.sec - st.updatedAt.sec) now).1 now).1.id = st.id := by
      rw [(detect_fields _ now).1, hh1, (rampPhase_fields st _).1]
    have hev2 : ((handleHeat st (now.sec - st.updatedAt.sec) now).2.2
        ++ (detectAndLogOverheat (handleHeat st (now.sec - st.updatedAt.sec) now).1 now).2.2).filter
          (fun ev => ev.typ = "MODE_CHANGE") = [] := by
      rw [hh2]
      rcases detect_events (handleHeat st (now.sec - st.updatedAt.sec) now).1 now with h | h <;>
        simp [h, overheatEvent]
    obtain ⟨u, hstate, hevents⟩ := runningTick_decomp st (now.sec - st.updatedAt.sec) now
    rw [hstate, hevents, hstep1]
    exact ⟨hmode2, hrem2, hrun2, hid2, hev2⟩

/-- Witness for C10: running HEAT state held at target with
`remainingSeconds = 0`, ticked 3 seconds later. -/
theorem c10_heat_zero_remaining_witness :
    (runTick ⟨1, "HEAT", 400, 400, 0, [], true, ⟨0, true⟩⟩ ⟨3, true⟩).state.mode = "HEAT" ∧
    (runTick ⟨1, "HEAT", 400, 400, 0, [], true, ⟨0, true⟩⟩ ⟨3, true⟩).state.remainingSeconds = 0 ∧
    (runTick ⟨1, "HEAT", 400, 400, 0, [], true, ⟨0, true⟩⟩ ⟨3, true⟩).state.isRunning = true ∧
    (runTick ⟨1, "HEAT", 400, 400, 0, [], true, ⟨0, true⟩⟩ ⟨3, true⟩).state.id
      = (⟨1, "HEAT", 400, 400, 0, [], true, ⟨0, true⟩⟩ : FurnaceState).id ∧
    (runTick ⟨1, "HEAT", 400, 400, 0, [], true, ⟨0, true⟩⟩ ⟨3, true⟩).events.filter
      (fun ev => ev.typ = "MODE_CHANGE") = [] :=
  c10_heat_zero_remaining ⟨1, "HEAT", 400, 400, 0, [], true, ⟨0, true⟩⟩ ⟨3, true⟩
    (by norm_num) rfl rfl rfl

-- ----------- C5 -----------

/-- C5: whenever a tick cools (mode COOL or STANDBY, or the furnace not
running), and for any elapsed-time magnitude, a temperature at or above
ambient (25°C) never drops below ambient, and a state already at or
below ambient is left entirely unchanged. -/
theorem c5_cooling_floor (st : FurnaceState) (now : GoTime) (hid : ¬st.id = 0)
    (hbr : st.isRunning = false ∨ st.mode = "COOL" ∨ st.mode = "STANDBY") :
    (AmbientC ≤ st.currentTempC → AmbientC ≤ (runTick st now).state.currentTempC) ∧
    (st.currentTempC ≤ AmbientC → (runTick st now).state = st) := by
  by_cases h1 : now.sec - st.updatedAt.sec < 1
  · simp [runTick, hid, h1]
  · by_cases hnr : st.isRunning = false
    · -- not running: driftToAmbient
      by_cases hgt : st.currentTempC > AmbientC
      · set t2 : ℚ :=
          maxFloat (st.currentTempC - StandbyCoolPerSec * (now.sec - st.updatedAt.sec)) AmbientC
          with ht2
        have hd : driftToAmbient st (now.sec - st.updatedAt.sec)
            = ({ st with currentTempC := t2 }, true) := by
          simp [driftToAmbient, hgt, ht2]
        constructor
        · intro _
          simp only [runTick, hid, h1, hnr, hd, if_false, ite_false, if_true]
          simp [ht2, le_maxFloat]
        · intro hle
          exact absurd hgt (not_lt.mpr hle)
      · have hd : driftToAmbient st (now.sec - st.updatedAt.sec) = (st, false) := by
          simp [driftToAmbient, hgt]
        constructor <;> intro h <;>
          simp [runTick, hid, h1, hnr, hd, h]
    · -- running in a non-HEAT mode: handleCooling at some positive rate
      have hrun : st.isRunning = true := by
        revert hnr; cases st.isRunning <;> simp
      have hmode : st.mode = "COOL" ∨ st.mode = "STANDBY" := by
        rcases hbr with h | h | h
        · rw [h] at hrun; cases hrun
        · exact Or.inl h
        · exact Or.inr h
      have hne : ¬st.mode = ModeHeat := by
        rcases hmode with h | h <;> simp [h, ModeHeat]
      rw [runTick_running st now hid h1 hrun]
      obtain ⟨rate, hrate, hstep⟩ := runningStep_notHeat st (now.sec - st.updatedAt.sec) now hne
      by_cases hgt : st.currentTempC > AmbientC
      · set t2 : ℚ :=
          maxFloat (st.currentTempC - rate * (now.sec - st.updatedAt.sec)) AmbientC
          with ht2
        have hc : handleCooling st (now.sec - st.updatedAt.sec) rate
            = ({ st with currentTempC := t2 }, true) := by
          simp [handleCooling, hgt, ht2]
        constructor
        · intro _
          obtain ⟨u, hstate, _⟩ := runningTick_decomp st (now.sec - st.updatedAt.sec) now
          rw [hstate, hstep, hc]
          have ht := (detect_fields ({ st with currentTempC := t2 }) now).2.2.1
          exact le_of_le_of_eq (show AmbientC ≤ t2 by rw [ht2]; exact le_maxFloat _ _) ht.symm
        · intro hle
          exact absurd hgt (not_lt.mpr hle)
      · have hc : handleCooling st (now.sec - st.updatedAt.sec) rate = (st, false) := by
          simp [handleCooling, hgt]
        have hcold : detectAndLogOverheat st now = (st, false, []) := by
          apply detect_cold
          push_neg at hgt
          have hms : AmbientC ≤ MaxSafeC := by norm_num [AmbientC, MaxSafeC]
          linarith
        constructor <;> intro h <;>
          simp [runningTick, hstep, hc, hcold, h]

/-- Witness for C5: a running COOL state at 30°C (above ambient) and a
stopped state at 20°C (below ambient), ticked 100 seconds later. -/
theorem c5_cooling_floor_witness :
    (AmbientC ≤ (⟨1, "COOL", 30, 0, 0, [], true, ⟨0, true⟩⟩ : FurnaceState).currentTempC →
      AmbientC ≤ (runTick ⟨1, "COOL", 30, 0, 0, [], true, ⟨0, true⟩⟩ ⟨100, true⟩).state.currentTempC) ∧
    ((⟨1, "COOL", 30, 0, 0, [], true, ⟨0, true⟩⟩ : FurnaceState).currentTempC ≤ AmbientC →
      (runTick ⟨1, "COOL", 30, 0, 0, [], true, ⟨0, true⟩⟩ ⟨100, true⟩).state
        = ⟨1, "COOL", 30, 0, 0, [], true, ⟨0, true⟩⟩) :=
  c5_cooling_floor ⟨1, "COOL", 30, 0, 0, [], true, ⟨0, true⟩⟩ ⟨100, true⟩
    (by norm_num) (Or.inr (Or.inl rfl))

-- ----------- C1 / C4 -----------

/-- `hasString` decides membership. -/
theorem hasString_iff_mem (ss : List String) (w : String) :
    hasString ss w = true ↔ w ∈ ss := by
  simp [hasString]

/-- One running tick with the post-branch temperature above the
threshold: "OVERHEAT" ends up present exactly `max 1 (previous count)`
times, exactly one ERROR event is appended, and id / running flag are
preserved. -/
theorem overheat_tick_core (st : FurnaceState) (now : GoTime)
    (hid : ¬st.id = 0) (hrun : st.isRunning = true)
    (h1 : ¬(now.sec - st.updatedAt.sec < 1))
    (htemp : (runningStep st (now.sec - st.updatedAt.sec) now).1.currentTempC > MaxSafeC) :
    (runTick st now).state.errorCodes.count "OVERHEAT"
      = max 1 (st.errorCodes.count "OVERHEAT") ∧
    ((runTick st now).events.filter (fun ev => ev.typ = "ERROR")).length = 1 ∧
    (runTick st now).state.id = st.id ∧
    (runTick st now).state.isRunning = true := by
  rw [runTick_running st now hid h1 hrun]
  obtain ⟨u, hstate, hevents⟩ := runningTick_decomp st (now.sec - st.updatedAt.sec) now
  rw [hstate, hevents]
  have hcodes : (runningStep st (now.sec - st.updatedAt.sec) now).1.errorCodes
      = st.errorCodes := (runningStep_preserve st (now.sec - st.updatedAt.sec) now).2.2.1
  have hstepid : (runningStep st (now.sec - st.updatedAt.sec) now).1.id = st.id :=
    (runningStep_preserve st (now.sec - st.updatedAt.sec) now).1
  have hsteprun : (runningStep st (now.sec - st.updatedAt.sec) now).1.isRunning
      = st.isRunning := (runningStep_preserve st (now.sec - st.updatedAt.sec) now).2.1
  have hfilterstep :
      ((runningStep st (now.sec - st.updatedAt.sec) now).2.2.filter
        (fun ev => ev.typ = "ERROR")) = [] := by
    rcases runningStep_events st (now.sec - st.updatedAt.sec) now with h | h <;>
      simp [h, modeChangeEvent]
  by_cases hhas : hasString (runningStep st (now.sec - st.updatedAt.sec) now).1.errorCodes
      "OVERHEAT" = true
  · have hdet : detectAndLogOverheat (runningStep st (now.sec - st.updatedAt.sec) now).1 now
        = ((runningStep st (now.sec - st.updatedAt.sec) now).1, false,
          [overheatEvent (runningStep st (now.sec - st.updatedAt.sec) now).1 now]) := by
      unfold detectAndLogOverheat
      rw [if_pos htemp, if_pos hhas]
    have hmem : "OVERHEAT" ∈ st.errorCodes := by
      rw [← hcodes]; exact (hasString_iff_mem _ _).mp hhas
    have hcnt : 0 < st.errorCodes.count "OVERHEAT" := List.count_pos_iff.mpr hmem
    refine ⟨?_, ?_, ?_, ?_⟩
    · show (detectAndLogOverheat (runningStep st (now.sec - st.updatedAt.sec) now).1 now).1.errorCodes.count
        "OVERHEAT" = _
      rw [hdet]
      simp only []
      rw [hcodes]
      omega
    · rw [hdet]
      simp [List.filter_append, hfilterstep, overheatEvent]
    · show (detectAndLogOverheat (runningStep st (now.sec - st.updatedAt.sec) now).1 now).1.id = st.id
      rw [hdet]; exact hstepid
    · show (detectAndLogOverheat (runningStep st (now.sec - st.updatedAt.sec) now).1 now).1.isRunning = true
      rw [hdet]; rw [hsteprun, hrun]
  · have hhas' : hasString (runningStep st (now.sec - st.updatedAt.sec) now).1.errorCodes
        "OVERHEAT" = false := by
      revert hhas; cases hasString (runningStep st (now.sec - st.updatedAt.sec) now).1.errorCodes
        "OVERHEAT" <;> simp
    have hdet : detectAndLogOverheat (runningStep st (now.sec - st.updatedAt.sec) now).1 now
        = ({ (runningStep st (now.sec - st.updatedAt.sec) now).1 with
            errorCodes := (runningStep st (now.sec - st.updatedAt.sec) now).1.errorCodes ++ ["OVERHEAT"] },
          true,
          [overheatEvent (runningStep st (now.sec - st.updatedAt.sec) now).1 now]) := by
      unfold detectAndLogOverheat
      rw [if_pos htemp, if_neg (by rw [hhas']; exact Bool.false_ne_true)]
    have hnotmem : "OVERHEAT" ∉ st.errorCodes := by
      rw [← hcodes]
      intro hm
      rw [(hasString_iff_mem _ _).mpr hm] at hhas'
      cases hhas'
    have hcnt : st.errorCodes.count "OVERHEAT" = 0 :=
      List.count_eq_zero.mpr hnotmem
    refine ⟨?_, ?_, ?_, ?_⟩
    · show (detectAndLogOverheat (runningStep st (now.sec - st.updatedAt.sec) now).1 now).1.errorCodes.count
        "OVERHEAT" = _
      rw [hdet]
      simp only []
      rw [List.count_append, hcodes, hcnt]
      simp
    · rw [hdet]
      simp [List.filter_append, hfilterstep, overheatEvent]
    · show (detectAndLogOverheat (runningStep st (now.sec - st.updatedAt.sec) now).1 now).1.id = st.id
      rw [hdet]; exact hstepid
    · show (detectAndLogOverheat (runningStep st (now.sec - st.updatedAt.sec) now).1 now).1.isRunning = true
      rw [hdet]; rw [hsteprun, hrun]

/-- C1 counterexample: the claim asserts the hazard check fires on every
tick "including when isRunning is false", but the code reaches
`detectAndLogOverheat` only in the running branch.  A stopped state at
1500°C (above the 1000°C threshold) ticked with elapsed 10s ≥ 1s emits
no event at all and gains no "OVERHEAT" error code. -/
theorem c1_counterexample :
    ((⟨1, "STANDBY", 1500, 0, 0, [], false, ⟨0, true⟩⟩ : FurnaceState).isRunning = false) ∧
    ((⟨1, "STANDBY", 1500, 0, 0, [], false, ⟨0, true⟩⟩ : FurnaceState).currentTempC > MaxSafeC) ∧
    ((⟨10, true⟩ : GoTime).sec - (⟨0, true⟩ : GoTime).sec ≥ 1) ∧
    (runTick ⟨1, "STANDBY", 1500, 0, 0, [], false, ⟨0, true⟩⟩ ⟨10, true⟩).events = [] ∧
    (runTick ⟨1, "STANDBY", 1500, 0, 0, [], false, ⟨0, true⟩⟩ ⟨10, true⟩).state.errorCodes.count
      "OVERHEAT" = 0 := by
  refine ⟨rfl, ?_, ?_, ?_, ?_⟩
  · norm_num [MaxSafeC]
  · norm_num
  · with_unfolding_all decide
  · with_unfolding_all decide

/-- C1 (amended): on every tick of a running state (elapsed ≥ 1s) whose
temperature at the overheat check (i.e. after the mode branch) exceeds
1000°C, "OVERHEAT" is present in `errorCodes` exactly once afterwards
(idempotent set semantics, given it was present at most once before) and
exactly one fresh ERROR event is appended for that tick.  When
`isRunning` is false the hazard check does not run at all. -/
theorem c1_overheat_running (st : FurnaceState) (now : GoTime)
    (hid : ¬st.id = 0) (hrun : st.isRunning = true)
    (h1 : ¬(now.sec - st.updatedAt.sec < 1))
    (htemp : (runningStep st (now.sec - st.updatedAt.sec) now).1.currentTempC > MaxSafeC)
    (hcount : st.errorCodes.count "OVERHEAT" ≤ 1) :
    (runTick st now).state.errorCodes.count "OVERHEAT" = 1 ∧
    ((runTick st now).events.filter (fun ev => ev.typ = "ERROR")).length = 1 := by
  obtain ⟨hc, he, _, _⟩ := overheat_tick_core st now hid hrun h1 htemp
  exact ⟨by omega, he⟩

/-- Witness for C1 (amended): a running STANDBY state at 1200°C, ticked
2 seconds later. -/
theorem c1_overheat_running_witness :
    (runTick ⟨1, "STANDBY", 1200, 0, 0, [], true, ⟨0, true⟩⟩ ⟨2, true⟩).state.errorCodes.count
      "OVERHEAT" = 1 ∧
    ((runTick ⟨1, "STANDBY", 1200, 0, 0, [], true, ⟨0, true⟩⟩ ⟨2, true⟩).events.filter
      (fun ev => ev.typ = "ERROR")).length = 1 :=
  c1_overheat_running ⟨1, "STANDBY", 1200, 0, 0, [], true, ⟨0, true⟩⟩ ⟨2, true⟩
    (by norm_num) rfl (by norm_num) (by with_unfolding_all decide) (by decide)

/-- C4: two consecutive running ticks whose post-branch temperature is
above 1000°C each time: afterwards `errorCodes` contains "OVERHEAT"
exactly once (the second add is a no-op), while exactly two ERROR events
were appended — one per tick. -/
theorem c4_double_overheat (st : FurnaceState) (now1 now2 : GoTime)
    (hid : ¬st.id = 0) (hrun : st.isRunning = true)
    (h1 : ¬(now1.sec - st.updatedAt.sec < 1))
    (htemp1 : (runningStep st (now1.sec - st.updatedAt.sec) now1).1.currentTempC > MaxSafeC)
    (hcount : st.errorCodes.count "OVERHEAT" ≤ 1)
    (h2 : ¬(now2.sec - (runTick st now1).state.updatedAt.sec < 1))
    (htemp2 : (runningStep (runTick st now1).state
        (now2.sec - (runTick st now1).state.updatedAt.sec) now2).1.currentTempC > MaxSafeC) :
    (runTick (runTick st now1).state now2).state.errorCodes.count "OVERHEAT" = 1 ∧
    ((runTick st now1).events.filter (fun ev => ev.typ = "ERROR")).length
      + ((runTick (runTick st now1).state now2).events.filter
          (fun ev => ev.typ = "ERROR")).length = 2 := by
  obtain ⟨hc1, he1, hid1, hrun1⟩ := overheat_tick_core st now1 hid hrun h1 htemp1
  have hid1' : ¬(runTick st now1).state.id = 0 := by rw [hid1]; exact hid
  obtain ⟨hc2, he2, _, _⟩ :=
    overheat_tick_core (runTick st now1).state now2 hid1' hrun1 h2 htemp2
  refine ⟨?_, ?_⟩
  · rw [hc2, hc1]; omega
  · rw [he1, he2]

/-- Witness for C4: a running STANDBY state at 1200°C ticked at t = 2s
and t = 4s (each tick still above the threshold). -/
theorem c4_double_overheat_witness :
    (runTick (runTick ⟨1, "STANDBY", 1200, 0, 0, [], true, ⟨0, true⟩⟩ ⟨2, true⟩).state
      ⟨4, true⟩).state.errorCodes.count "OVERHEAT" = 1 ∧
    ((runTick ⟨1, "STANDBY", 1200, 0, 0, [], true, ⟨0, true⟩⟩ ⟨2, true⟩).events.filter
      (fun ev => ev.typ = "ERROR")).length
      + ((runTick (runTick ⟨1, "STANDBY", 1200, 0, 0, [], true, ⟨0, true⟩⟩ ⟨2, true⟩).state
          ⟨4, true⟩).events.filter (fun ev => ev.typ = "ERROR")).length = 2 :=
  c4_double_overheat ⟨1, "STANDBY", 1200, 0, 0, [], true, ⟨0, true⟩⟩ ⟨2, true⟩ ⟨4, true⟩
    (by norm_num) rfl (by norm_num) (by with_unfolding_all decide) (by decide)
    (by with_unfolding_all decide) (by with_unfolding_all decide)

-- ----------- C9 -----------

/-- States differing in `currentTempC` have different core fields. -/
theorem coreFields_ne_of_temp (a b : FurnaceState)
    (h : a.currentTempC ≠ b.currentTempC) : coreFields a ≠ coreFields b := by
  intro hh
  apply h
  have h2 := congrArg
    (fun t : Int × String × ℚ × ℚ × Int × List String × Bool => t.2.2.1) hh
  simpa [coreFields] using h2

/-- States differing in `remainingSeconds` have different core fields. -/
theorem coreFields_ne_of_rem (a b : FurnaceState)
    (h : a.remainingSeconds ≠ b.remainingSeconds) : coreFields a ≠ coreFields b := by
  intro hh
  apply h
  have h2 := congrArg
    (fun t : Int × String × ℚ × ℚ × Int × List String × Bool => t.2.2.2.2.1) hh
  simpa [coreFields] using h2

/-- States differing in `errorCodes` have different core fields. -/
theorem coreFields_ne_of_codes (a b : FurnaceState)
    (h : a.errorCodes ≠ b.errorCodes) : coreFields a ≠ coreFields b := by
  intro hh
  apply h
  have h2 := congrArg
    (fun t : Int × String × ℚ × ℚ × Int × List String × Bool => t.2.2.2.2.2.1) hh
  simpa [coreFields] using h2

/-- Appending an element changes a list. -/
theorem append_singleton_ne (l : List String) (x : String) : l ++ [x] ≠ l := by
  intro h
  have h2 := congrArg List.length h
  simp at h2

/-- The ramp phase's `tempChanged` flag is truthful: set exactly when
the temperature moved. -/
theorem rampPhase_flag (st : FurnaceState) (e : ℚ) :
    ((rampPhase st e).2.1 = true ∧ (rampPhase st e).1.currentTempC ≠ st.currentTempC) ∨
    ((rampPhase st e).2.1 = false ∧ (rampPhase st e).1 = st) := by
  by_cases hA : st.currentTempC < st.targetTempC - SoakToleranceC
  · by_cases ht : (if st.currentTempC + RampUpCPerSec * e > st.targetTempC then st.targetTempC
        else st.currentTempC + RampUpCPerSec * e) = st.currentTempC
    · right
      constructor <;> simp [rampPhase, hA, ht]
    · left
      constructor <;> simp [rampPhase, hA, ht]
  · by_cases hB : st.currentTempC > st.targetTempC
    · left
      refine ⟨by simp [rampPhase, hA, hB], ?_⟩
      simpa [rampPhase, hA, hB] using ne_of_lt hB
    · right
      constructor <;> simp [rampPhase, hA, hB]

/-- The soak countdown's `changed` flag is truthful: set exactly when
the remaining seconds moved. -/
theorem soakCountdown_flag (s1 : FurnaceState) (so : ℚ) (now : GoTime) :
    ((soakCountdown s1 so now).2.1 = true ∧
      (soakCountdown s1 so now).1.remainingSeconds ≠ s1.remainingSeconds) ∨
    ((soakCountdown s1 so now).2.1 = false ∧ (soakCountdown s1 so now).1 = s1) := by
  rcases soakCountdown_cases s1 so now with h | ⟨d, hd1, hd2, h⟩ | ⟨hrem, h⟩
  · right; rw [h]; exact ⟨rfl, rfl⟩
  · left; rw [h]; refine ⟨rfl, ?_⟩; simp; omega
  · left; rw [h]; refine ⟨rfl, ?_⟩; simp; omega

/-- `handleCooling`'s `changed` flag is truthful (for a positive rate
and at least one elapsed second the cooled temperature is strictly
lower). -/
theorem handleCooling_flag (st : FurnaceState) (e rate : ℚ)
    (hrate : 0 < rate) (he : 1 ≤ e) :
    ((handleCooling st e rate).2 = true ∧
      (handleCooling st e rate).1.currentTempC ≠ st.currentTempC) ∨
    ((handleCooling st e rate).2 = false ∧ (handleCooling st e rate).1 = st) := by
  by_cases hgt : st.currentTempC > AmbientC
  · left
    have hlt : maxFloat (st.currentTempC - rate * e) AmbientC < st.currentTempC := by
      apply maxFloat_lt
      · have hre : rate ≤ rate * e := by nlinarith
        linarith
      · exact hgt
    refine ⟨by simp [handleCooling, hgt], ?_⟩
    simpa [handleCooling, hgt] using ne_of_lt hlt
  · right
    constructor <;> simp [handleCooling, hgt]

/-- `driftToAmbient` is `handleCooling` at the standby rate. -/
theorem driftToAmbient_eq (st : FurnaceState) (e : ℚ) :
    driftToAmbient st e = handleCooling st e StandbyCoolPerSec := rfl

/-- `handleHeat`'s `changed` flag is truthful: set exactly when some
core field moved. -/
theorem handleHeat_flag (st : FurnaceState) (e : ℚ) (now : GoTime) :
    ((handleHeat st e now).2.1 = true ∧
      coreFields (handleHeat st e now).1 ≠ coreFields st) ∨
    ((handleHeat st e now).2.1 = false ∧ (handleHeat st e now).1 = st) := by
  rcases rampPhase_flag st e with ⟨hf, hne⟩ | ⟨hf, heq⟩
  · left
    refine ⟨by simp [handleHeat, hf], ?_⟩
    apply coreFields_ne_of_temp
    have hT : (handleHeat st e now).1.currentTempC = (rampPhase st e).1.currentTempC := by
      have := (soakCountdown_fields (rampPhase st e).1 (rampPhase st e).2.2 now).2.1
      simpa [handleHeat] using this
    rw [hT]; exact hne
  · rcases soakCountdown_flag (rampPhase st e).1 (rampPhase st e).2.2 now with
      ⟨hf2, hne2⟩ | ⟨hf2, heq2⟩
    · left
      refine ⟨by simp [handleHeat, hf2], ?_⟩
      apply coreFields_ne_of_rem
      have hR : (handleHeat st e now).1.remainingSeconds
          = (soakCountdown (rampPhase st e).1 (rampPhase st e).2.2 now).1.remainingSeconds := by
        simp [handleHeat]
      rw [hR, heq]
      rw [heq] at hne2
      exact hne2
    · right
      constructor
      · simp [handleHeat, hf, hf2]
      · have : (handleHeat st e now).1
            = (soakCountdown (rampPhase st e).1 (rampPhase st e).2.2 now).1 := by
          simp [handleHeat]
        rw [this, heq2, heq]

/-- The mode switch's `changed` flag is truthful. -/
theorem runningStep_flag (st : FurnaceState) (e : ℚ) (now : GoTime) (he : 1 ≤ e) :
    ((runningStep st e now).2.1 = true ∧
      coreFields (runningStep st e now).1 ≠ coreFields st) ∨
    ((runningStep st e now).2.1 = false ∧ (runningStep st e now).1 = st) := by
  by_cases hh : st.mode = ModeHeat
  · have hEq : runningStep st e now = handleHeat st e now := by
      unfold runningStep; rw [if_pos hh]
    rw [hEq]
    exact handleHeat_flag st e now
  · obtain ⟨rate, hrate, hstep⟩ := runningStep_notHeat st e now hh
    rw [hstep]
    rcases handleCooling_flag st e rate hrate he with ⟨hf, hne⟩ | ⟨hf, heq⟩
    · exact Or.inl ⟨hf, coreFields_ne_of_temp _ _ hne⟩
    · exact Or.inr ⟨hf, heq⟩

/-- Overheat detection's `stateChanged` flag is truthful: set exactly
when "OVERHEAT" was appended. -/
theorem detect_flag (s : FurnaceState) (now : GoTime) :
    ((detectAndLogOverheat s now).2.1 = true ∧
      (detectAndLogOverheat s now).1.errorCodes = s.errorCodes ++ ["OVERHEAT"]) ∨
    ((detectAndLogOverheat s now).2.1 = false ∧ (detectAndLogOverheat s now).1 = s) := by
  by_cases h1 : s.currentTempC > MaxSafeC
  · by_cases h2 : hasString s.errorCodes "OVERHEAT" = true
    · right
      constructor <;> simp [detectAndLogOverheat, h1, h2]
    · left
      constructor <;> simp [detectAndLogOverheat, h1, h2]
  · right
    constructor <;> simp [detectAndLogOverheat, h1]

/-- C9: on an existing state, a tick Saves (exactly once, with
`updatedAt` set to the tick timestamp in UTC) if and only if some field
other than `updatedAt` changed; when nothing changed, nothing is written
and the in-memory state is exactly the loaded one. -/
theorem c9_save_iff_changed (st : FurnaceState) (now : GoTime) (hid : ¬st.id = 0) :
    ((runTick st now).saved = true ↔
      coreFields (runTick st now).state ≠ coreFields st) ∧
    ((runTick st now).saved = true → (runTick st now).state.updatedAt = goUTC now) ∧
    ((runTick st now).saved = false → (runTick st now).state = st) := by
  have hchar :
      ((runTick st now).saved = true ∧ coreFields (runTick st now).state ≠ coreFields st ∧
        (runTick st now).state.updatedAt = goUTC now) ∨
      ((runTick st now).saved = false ∧ (runTick st now).state = st) := by
    by_cases h1 : now.sec - st.updatedAt.sec < 1
    · right
      constructor <;> simp [runTick, hid, h1]
    · by_cases hnr : st.isRunning = false
      · -- not-running branch: driftToAmbient
        rcases handleCooling_flag st (now.sec - st.updatedAt.sec) StandbyCoolPerSec
            (by norm_num [StandbyCoolPerSec]) (by linarith [not_lt.mp h1]) with
          ⟨hf, hne⟩ | ⟨hf, heq⟩
        · left
          have hres : runTick st now
              = ⟨{ (driftToAmbient st (now.sec - st.updatedAt.sec)).1 with
                  updatedAt := goUTC now }, true, []⟩ := by
            simp only [runTick, hid, h1, hnr]
            simp [driftToAmbient_eq, hf]
          rw [hres]
          refine ⟨rfl, ?_, rfl⟩
          apply coreFields_ne_of_temp
          show (driftToAmbient st (now.sec - st.updatedAt.sec)).1.currentTempC ≠ st.currentTempC
          rw [driftToAmbient_eq]
          exact hne
        · right
          have hres : runTick st now = ⟨st, false, []⟩ := by
            simp only [runTick, hid, h1, hnr]
            simp [driftToAmbient_eq, hf]
          rw [hres]
          exact ⟨rfl, rfl⟩
      · have hrun : st.isRunning = true := by
          revert hnr; cases st.isRunning <;> simp
        rw [runTick_running st now hid h1 hrun]
        have he : (1 : ℚ) ≤ now.sec - st.updatedAt.sec := not_lt.mp h1
        rcases runningStep_flag st (now.sec - st.updatedAt.sec) now he with
          ⟨hf1, hne1⟩ | ⟨hf1, heq1⟩
        · -- mode switch changed something: saved, and core fields differ
          left
          have hcond : ((runningStep st (now.sec - st.updatedAt.sec) now).2.1
              || (detectAndLogOverheat (runningStep st (now.sec - st.updatedAt.sec) now).1
                  now).2.1) = true := by
            rw [hf1]; rfl
          have hres : runningTick st (now.sec - st.updatedAt.sec) now
              = ⟨{ (detectAndLogOverheat
                    (runningStep st (now.sec - st.updatedAt.sec) now).1 now).1 with
                  updatedAt := goUTC now }, true,
                (runningStep st (now.sec - st.updatedAt.sec) now).2.2
                  ++ (detectAndLogOverheat
                      (runningStep st (now.sec - st.updatedAt.sec) now).1 now).2.2⟩ := by
            simp only [runningTick]
            rw [if_pos hcond]
          rw [hres]
          refine ⟨rfl, ?_, rfl⟩
          rcases detect_flag (runningStep st (now.sec - st.updatedAt.sec) now).1 now with
            ⟨hf2, hcodes⟩ | ⟨hf2, heq2⟩
          · apply coreFields_ne_of_codes
            show (detectAndLogOverheat
              (runningStep st (now.sec - st.updatedAt.sec) now).1 now).1.errorCodes
              ≠ st.errorCodes
            rw [hcodes,
              (runningStep_preserve st (now.sec - st.updatedAt.sec) now).2.2.1]
            exact append_singleton_ne _ _
          · show coreFields { (detectAndLogOverheat
              (runningStep st (now.sec - st.updatedAt.sec) now).1 now).1 with
                updatedAt := goUTC now } ≠ coreFields st
            have hcf : coreFields { (detectAndLogOverheat
                (runningStep st (now.sec - st.updatedAt.sec) now).1 now).1 with
                  updatedAt := goUTC now }
                = coreFields (detectAndLogOverheat
                  (runningStep st (now.sec - st.updatedAt.sec) now).1 now).1 := rfl
            rw [hcf, heq2]
            exact hne1
        · rcases detect_flag (runningStep st (now.sec - st.updatedAt.sec) now).1 now with
            ⟨hf2, hcodes⟩ | ⟨hf2, heq2⟩
          · -- only the overheat code was added: saved, codes differ
            left
            have hcond : ((runningStep st (now.sec - st.updatedAt.sec) now).2.1
                || (detectAndLogOverheat (runningStep st (now.sec - st.updatedAt.sec) now).1
                    now).2.1) = true := by
              rw [hf2]; simp
            have hres : runningTick st (now.sec - st.updatedAt.sec) now
                = ⟨{ (detectAndLogOverheat
                      (runningStep st (now.sec - st.updatedAt.sec) now).1 now).1 with
                    updatedAt := goUTC now }, true,
                  (runningStep st (now.sec - st.updatedAt.sec) now).2.2
                    ++ (detectAndLogOverheat
                        (runningStep st (now.sec - st.updatedAt.sec) now).1 now).2.2⟩ := by
              simp only [runningTick]
              rw [if_pos hcond]
            rw [hres]
            refine ⟨rfl, ?_, rfl⟩
            apply coreFields_ne_of_codes
            show (detectAndLogOverheat
              (runningStep st (now.sec - st.updatedAt.sec) now).1 now).1.errorCodes
              ≠ st.errorCodes
            rw [hcodes,
              (runningStep_preserve st (now.sec - st.updatedAt.sec) now).2.2.1]
            exact append_singleton_ne _ _
          · -- nothing changed: no save, state untouched
            right
            have hcond : ((runningStep st (now.sec - st.updatedAt.sec) now).2.1
                || (detectAndLogOverheat (runningStep st (now.sec - st.updatedAt.sec) now).1
                    now).2.1) = false := by
              rw [hf1, hf2]; rfl
            have hres : runningTick st (now.sec - st.updatedAt.sec) now
                = ⟨(detectAndLogOverheat
                    (runningStep st (now.sec - st.updatedAt.sec) now).1 now).1, false,
                  (runningStep st (now.sec - st.updatedAt.sec) now).2.2
                    ++ (detectAndLogOverheat
                        (runningStep st (now.sec - st.updatedAt.sec) now).1 now).2.2⟩ := by
              simp only [runningTick]
              rw [if_neg (by rw [hcond]; exact Bool.false_ne_true)]
            rw [hres]
            exact ⟨rfl, by rw [heq2, heq1]⟩
  rcases hchar with ⟨hs, hne, hu⟩ | ⟨hs, hst⟩
  · refine ⟨?_, fun _ => hu, ?_⟩
    · rw [hs]; simp [hne]
    · intro h; rw [hs] at h; cases h
  · refine ⟨?_, ?_, fun _ => hst⟩
    · rw [hs, hst]; simp
    · intro h; rw [hs] at h; cases h

/-- Witness for C9: a running COOL state above ambient (tick changes the
temperature, hence Saves with the tick timestamp) — conclusions
instantiated from the theorem. -/
theorem c9_save_iff_changed_witness :
    ((runTick ⟨1, "COOL", 100, 0, 0, [], true, ⟨0, true⟩⟩ ⟨2, true⟩).saved = true ↔
      coreFields (runTick ⟨1, "COOL", 100, 0, 0, [], true, ⟨0, true⟩⟩ ⟨2, true⟩).state
        ≠ coreFields ⟨1, "COOL", 100, 0, 0, [], true, ⟨0, true⟩⟩) ∧
    ((runTick ⟨1, "COOL", 100, 0, 0, [], true, ⟨0, true⟩⟩ ⟨2, true⟩).saved = true →
      (runTick ⟨1, "COOL", 100, 0, 0, [], true, ⟨0, true⟩⟩ ⟨2, true⟩).state.updatedAt
        = goUTC ⟨2, true⟩) ∧
    ((runTick ⟨1, "COOL", 100, 0, 0, [], true, ⟨0, true⟩⟩ ⟨2, true⟩).saved = false →
      (runTick ⟨1, "COOL", 100, 0, 0, [], true, ⟨0, true⟩⟩ ⟨2, true⟩).state
        = ⟨1, "COOL", 100, 0, 0, [], true, ⟨0, true⟩⟩) :=
  c9_save_iff_changed ⟨1, "COOL", 100, 0, 0, [], true, ⟨0, true⟩⟩ ⟨2, true⟩ (by norm_num)

end FurnaceCtl
